import Mathlib

/-!
Verification development for the climate-disaster school-disruption dashboard
(src/streamlit_app.py).  The data pipeline of the program is shallowly
embedded: pandas frames become `DataFrame` (a column-name list plus rows of
cells), the three remote fetches of `load_official_datasets` are parameters
describing every possible fetch outcome, the `np.random.uniform` draws of the
precipitation fallback are an oracle parameter, and the UTC+9 midnight
`CUTOFF` computed at call time is a parameter of the load functions.  Dates
are encoded as the natural number yyyymmdd (every datetime in the program is
a midnight timestamp, so day granularity is faithful and the numeric order
coincides with the chronological order).
-/

set_option maxRecDepth 8000

unseal Rat.add Rat.mul Rat.inv Rat.sub

namespace GdpDash

/-- A single pandas cell: `null` stands for NaN/NaT/None, `date` for a
datetime64 value (day-encoded as yyyymmdd), `num` for a numeric value and
`str` for a Python string.  Every datetime value this program's frames ever
hold is timezone-naive — the fallback literals, the `pd.date_range` output
and every string shape the `to_datetime` calls parse carry no UTC offset —
so `date` cells represent tz-naive values only; the tz-aware `CUTOFF`
scalar enters solely as the cutoff argument of the future-date filter. -/
inductive Cell where
  | null : Cell
  | date : Nat → Cell
  | num : ℚ → Cell
  | str : String → Cell
  deriving DecidableEq

/-- An exception a pandas operation raises in this program. -/
inductive PyError where
  | typeError : PyError
  deriving DecidableEq

instance exceptDecEq {ε α : Type} [DecidableEq ε] [DecidableEq α] :
    DecidableEq (Except ε α) := fun a b =>
  match a, b with
  | Except.error e1, Except.error e2 =>
    match decEq e1 e2 with
    | isTrue h => isTrue (by rw [h])
    | isFalse h => isFalse (by intro hc; injection hc; contradiction)
  | Except.ok v1, Except.ok v2 =>
    match decEq v1 v2 with
    | isTrue h => isTrue (by rw [h])
    | isFalse h => isFalse (by intro hc; injection hc; contradiction)
  | Except.error _, Except.ok _ => isFalse (by intro hc; exact Except.noConfusion hc)
  | Except.ok _, Except.error _ => isFalse (by intro hc; exact Except.noConfusion hc)

/-- A pandas DataFrame: column labels plus one cell list per row.  The
labels produced by `pd.json_normalize` (JSON object keys) and `pd.read_csv`
(which mangles duplicate headers) are unique, so first-match positional
lookup below coincides with pandas label lookup. -/
structure DataFrame where
  cols : List String
  rows : List (List Cell)
  deriving DecidableEq

/-- Cell of a row at a column position (out-of-range reads are missing
values). -/
def getCell (r : List Cell) (i : Nat) : Cell := r.getD i Cell.null

def Cell.isNull : Cell → Bool
  | Cell.null => true
  | _ => false

def Cell.isNum : Cell → Bool
  | Cell.num _ => true
  | _ => false

def Cell.isNumOrNull : Cell → Bool
  | Cell.num _ => true
  | Cell.null => true
  | _ => false

/-- Numeric value of a list of digit characters. -/
def digitsVal (cs : List Char) : Nat :=
  cs.foldl (fun a c => 10 * a + (c.toNat - 48)) 0

/-- Best-effort model of parsing one string with
`pd.to_datetime(..., errors=coerce)`: the ISO `YYYY-MM-DD` shape used by
every dataset of this program parses to a day value, anything else coerces
to NaT. -/
def parseYMD (s : String) : Option Nat :=
  match s.data.splitOn '-' with
  | [y, m, d] =>
    if y.all Char.isDigit ∧ m.all Char.isDigit ∧ d.all Char.isDigit
        ∧ y.length = 4 ∧ 1 ≤ digitsVal m ∧ digitsVal m ≤ 12
        ∧ 1 ≤ digitsVal d ∧ digitsVal d ≤ 31 then
      some (10000 * digitsVal y + 100 * digitsVal m + digitsVal d)
    else none
  | _ => none

def nsPerDay : Int := 86400000000000

/-- Civil date (as the yyyymmdd key) of a day count relative to
1970-01-01, by the standard civil-from-days computation. -/
def ymdOfEpochDay (z0 : Int) : Nat :=
  let z := z0 + 719468
  let era := z.ediv 146097
  let doe := (z - era * 146097).toNat
  let yoe := (doe - doe / 1460 + doe / 36524 - doe / 146096) / 365
  let doy := doe - (365 * yoe + yoe / 4 - yoe / 100)
  let mp := (5 * doy + 2) / 153
  let d := doy - (153 * mp + 2) / 5 + 1
  let m := if mp < 10 then mp + 3 else mp - 9
  let y := if m ≤ 2 then era * 400 + (yoe : Int) + 1 else era * 400 + (yoe : Int)
  y.toNat * 10000 + m * 100 + d

/-- Model of pandas reading one numeric value as an epoch-nanosecond
timestamp under `errors=coerce`: values outside the int64 timestamp range
(and the NaT sentinel -2^63) coerce to NaT, otherwise the value denotes
its civil day; fractional nanoseconds are immaterial at day scale and
truncate. -/
def epochNsToDate (q : ℚ) : Option Nat :=
  if -(2 ^ 63) < q.num / (q.den : Int) ∧ q.num / (q.den : Int) ≤ 2 ^ 63 - 1 then
    some (ymdOfEpochDay ((q.num / (q.den : Int)).fdiv nsPerDay))
  else none

/-- Elementwise model of `pd.to_datetime(column, errors=coerce)`: datetime
cells pass through, strings parse best-effort, numeric cells are read as
epoch-nanosecond timestamps, missing values stay NaT.  Every shape this
parses is offset-free, so the resulting values are tz-naive. -/
def toDatetimeCell : Cell → Cell
  | Cell.date d => Cell.date d
  | Cell.str s =>
    match parseYMD s with
    | some d => Cell.date d
    | none => Cell.null
  | Cell.num q =>
    match epochNsToDate q with
    | some d => Cell.date d
    | none => Cell.null
  | Cell.null => Cell.null

/-- Elementwise model of `pd.to_numeric(column, errors=coerce)`. -/
def toNumericCell : Cell → Cell
  | Cell.num q => Cell.num q
  | Cell.str s =>
    match s.toInt? with
    | some n => Cell.num (n : ℚ)
    | none => Cell.null
  | _ => Cell.null

/-- Elementwise model of `.fillna(0)`. -/
def fillnaZero : Cell → Cell
  | Cell.null => Cell.num 0
  | c => c

/-- Elementwise model of `.astype(int)` (truncation toward zero) on a
numeric column. -/
def astypeIntCell : Cell → Cell
  | Cell.num q => Cell.num ((q.num / (q.den : Int) : Int) : ℚ)
  | c => c

/-- Model of the in-place column assignment `df[c] = f(df[c])`. -/
def setColNamed (df : DataFrame) (c : String) (f : Cell → Cell) : DataFrame :=
  ⟨df.cols, df.rows.map (fun r =>
    r.set (df.cols.indexOf c) (f (getCell r (df.cols.indexOf c))))⟩

/-- Model of `df.rename(columns=...)` for one old-to-new pair: every column
label equal to `o` is renamed to `n`. -/
def renameCol (o n : String) (df : DataFrame) : DataFrame :=
  ⟨df.cols.map (fun c => if c = o then n else c), df.rows⟩

/-- Column positions matched by a `df[[...]]` selection, in request order. -/
def selIdxs (df : DataFrame) (names : List String) : List Nat :=
  (names.map (fun n =>
    (List.range df.cols.length).filter (fun i => df.cols.getD i "" == n))).flatten

/-- Model of column selection `df[[...]]`: for each requested label, every
matching column is taken, in request order. -/
def selectCols (df : DataFrame) (names : List String) : DataFrame :=
  ⟨(selIdxs df names).map (fun i => df.cols.getD i ""),
   df.rows.map (fun r => (selIdxs df names).map (fun i => getCell r i))⟩

def rowHasNull (ncols : Nat) (r : List Cell) : Bool :=
  (List.range ncols).any (fun i => (getCell r i).isNull)

/-- Model of `df.dropna()`: drop every row holding a missing value. -/
def dropna (df : DataFrame) : DataFrame :=
  ⟨df.cols, df.rows.filter (fun r => !rowHasNull df.cols.length r)⟩

/-- Model of `df.dropna(subset=[date])`. -/
def dropnaDate (df : DataFrame) : DataFrame :=
  ⟨df.cols, df.rows.filter (fun r => !(getCell r (df.cols.indexOf "date")).isNull)⟩

/-- Model of appending a derived column `df[c] = f(row)` for a label not yet
present (pandas appends new columns at the end). -/
def appendCol (df : DataFrame) (c : String) (f : List Cell → Cell) : DataFrame :=
  ⟨df.cols ++ [c], df.rows.map (fun r => r ++ [f r])⟩

/-- Indices of the columns `select_dtypes(include=number)` reports at the
point it is called in the education branch: the `date` column has just been
coerced to datetime dtype (hence never numeric), and a read_csv column is
numeric exactly when it is nonempty and every parsed entry is a number or a
missing value. -/
def numericIdxs (df : DataFrame) : List Nat :=
  (List.range df.cols.length).filter (fun i =>
    !(df.cols.getD i "" == "date") && !df.rows.isEmpty
      && df.rows.all (fun r => (getCell r i).isNumOrNull))

def cellNumVal : Cell → ℚ
  | Cell.num q => q
  | _ => 0

/-- Model of `df[numeric_cols].sum(axis=1)` (missing values count as 0,
pandas default skipna). -/
def rowSum (idxs : List Nat) (r : List Cell) : ℚ :=
  (idxs.map (fun i => cellNumVal (getCell r i))).sum

/-- Faithful model of `remove_future_dates` (src/streamlit_app.py lines
190-194).  A frame without a `date` column skips the comparison and is
returned unchanged.  When a `date` column exists, the comparison
`df['date'] < CUTOFF` raises TypeError: the column is tz-naive
datetime64 at every call site (see `Cell`), while
`CUTOFF = seoul_midnight_today()` (lines 43-47) is a tz-aware datetime
(`tzinfo=timezone(timedelta(hours=9))`), and pandas refuses an ordered
comparison between a tz-naive datetime64 column and a tz-aware scalar
(DatetimeArray comparison validation raises for `<`, unlike `==`/`!=`
which would return all-False); a non-datetime `date` column against the
datetime scalar raises TypeError as well.  `cutoffDay` is the day key of
CUTOFF; the raise happens before any value is inspected. -/
def remove_future_dates (cutoffDay : Nat) (df : DataFrame) : Except PyError DataFrame :=
  if df.cols.contains "date" then Except.error PyError.typeError
  else Except.ok df

/-- Modelled from the spec: the future-date filter as the spec states it
(sections 3 and 8: records at or after the UTC+9 midnight cutoff are
discarded, the rest returned) and as the code's own comments intend
(lines 7, 10, 189-190) — a strict comparison of each record's day key
against the cutoff day, with NaT dates dropped and frames without a
`date` column returned unchanged.  The code does not achieve this: its
comparison raises (see `remove_future_dates`). -/
def remove_future_dates_spec (cutoffDay : Nat) (df : DataFrame) : DataFrame :=
  if df.cols.contains "date" then
    ⟨df.cols, df.rows.filter (fun r =>
      match getCell r (df.cols.indexOf "date") with
      | Cell.date d => decide (d < cutoffDay)
      | _ => false)⟩
  else df

/-- Well-formedness of a frame: each row has one cell per column. -/
def DataFrame.WF (df : DataFrame) : Prop :=
  ∀ r ∈ df.rows, r.length = df.cols.length

/-- Outcome of one `requests.get`: `exn` is a raised network error or
timeout; `ok status body` is a completed HTTP response whose decoded body is
`Except.error ()` when decoding (`r.json()` / `pd.read_csv`) raises, and the
decoded value otherwise. -/
inductive Fetch (β : Type) where
  | exn : Fetch β
  | ok : Nat → Except Unit β → Fetch β

/-- One entry of the `features` list of the geo endpoint, projected to the
fields the program reads: the value stored under `damage_count` and under
`name` in `properties` (if those keys are present), and the value stored
under `coordinates` in `geometry` (if present). -/
structure GeoFeature where
  damage_count : Option Cell
  gname : Option String
  coordinates : Option (List Cell)
  deriving DecidableEq

/-- A `features` entry: `bad` covers entries whose `properties` or
`geometry` access raises (non-object JSON values). -/
inductive GeoItem where
  | bad : GeoItem
  | feat : GeoFeature → GeoItem
  deriving DecidableEq

/-- Decoded body of the geo endpoint: `nonDict` covers JSON bodies that are
not objects (`.get` raises on them); `dict feats` is an object whose
`features` key holds the given list, or is absent (`none`). -/
inductive GeoJson where
  | nonDict : GeoJson
  | dict : Option (List GeoItem) → GeoJson
  deriving DecidableEq

/-- The three fetch outcomes of one `load_official_datasets` call. -/
structure Outcomes where
  nasa : Fetch DataFrame
  edu : Fetch DataFrame
  geo : Fetch GeoJson

/-- The dict `load_official_datasets` is meant to return (line 198). -/
structure Bundle where
  precip_ts : DataFrame
  school_actions : DataFrame
  school_damage_geo : DataFrame
  messages : List String
  deriving DecidableEq

/-- The loader's state after line 188: the three frames built by the
try/except branches (fallbacks substituted on failure) with the
standardization loop applied, plus the status messages, just before the
future-date filter runs. -/
structure Frames where
  precip : DataFrame
  school : DataFrame
  geo : DataFrame
  messages : List String
  deriving DecidableEq

def nasaOkMsg : String := "NASA GPM 데이터 로드 성공"
def nasaFailMsg : String := "NASA/NOAA 호출 실패: 내부 예시 데이터로 대체"
def eduOkMsg : String := "교육부 학교조치 데이터 로드 성공"
def eduFailMsg : String := "교육부/뉴스 API 호출 실패: 내부 예시 데이터로 대체"
def geoOkMsg : String := "지리 데이터 로드 성공"
def geoFailMsg : String := "지리/위치 데이터 로드 실패: 내부 예시 데이터로 대체"

/-- `pd.date_range(start=2015-01-01, end=2025-07-01, freq=YS)`: the eleven
year starts up to the end bound. -/
def precipYears : List Nat :=
  [20150101, 20160101, 20170101, 20180101, 20190101, 20200101,
   20210101, 20220101, 20230101, 20240101, 20250101]

/-- The precipitation fallback frame (lines 111-116): fixed yearly dates,
values `np.random.uniform(20, 80) + i * 3` where `rand i` is the i-th
uniform draw of the call. -/
def precipFallback (rand : Nat → ℚ) : DataFrame :=
  ⟨["date", "value"],
   (List.range 11).map (fun i =>
     [Cell.date (precipYears.getD i 0), Cell.num (rand i + 3 * (i : ℚ))])⟩

/-- The school-actions fallback frame (lines 144-149). -/
def schoolActionsFallback : DataFrame :=
  ⟨["date", "value"],
   [[Cell.date 20230716, Cell.num 24],
    [Cell.date 20230810, Cell.num 5],
    [Cell.date 20240720, Cell.num 40],
    [Cell.date 20250718, Cell.num 247],
    [Cell.date 20250319, Cell.num 12]]⟩

/-- The geo fallback frame (lines 176-182). -/
def geoFallback : DataFrame :=
  ⟨["name", "lat", "lon", "value"],
   [[Cell.str "청주 지역학교", Cell.num (36642/1000), Cell.num (127489/1000), Cell.num 11],
    [Cell.str "진천 학교", Cell.num (36873/1000), Cell.num (127327/1000), Cell.num 3],
    [Cell.str "옥천 학교", Cell.num (36305/1000), Cell.num (127654/1000), Cell.num 2],
    [Cell.str "영동 학교", Cell.num (36118/1000), Cell.num (127761/1000), Cell.num 2],
    [Cell.str "괴산 학교", Cell.num (36606/1000), Cell.num (127957/1000), Cell.num 2]]⟩

/-- The NASA branch try body (lines 90-108).  `Except.error ()` is a raised
exception (network error, non-200 status, body decode failure, or the
explicit ValueError when the `date` / `precip` fields are missing); the ok
value is the normalized frame and the success message. -/
def nasaTry : Fetch DataFrame → Except Unit (DataFrame × String)
  | Fetch.exn => Except.error ()
  | Fetch.ok status body =>
    if status = 200 then
      match body with
      | Except.error _ => Except.error ()
      | Except.ok df =>
        if df.cols.contains "date" && df.cols.contains "precip" then
          let df1 := renameCol "precip" "value" df
          let df2 := setColNamed df1 "date" toDatetimeCell
          Except.ok (dropna (selectCols df2 ["date", "value"]), nasaOkMsg)
        else Except.error ()
    else Except.error ()

/-- The education branch try body (lines 119-141).  When the parsed CSV has
no `date` column the first column is renamed to `date` (`columns[0]` raises
IndexError on a zero-column frame); when no `value` column exists one is
derived as the row sum of the numeric columns, or the constant 0. -/
def eduTry : Fetch DataFrame → Except Unit (DataFrame × String)
  | Fetch.exn => Except.error ()
  | Fetch.ok status body =>
    if status = 200 then
      match body with
      | Except.error _ => Except.error ()
      | Except.ok df0 =>
        match (if df0.cols.contains "date" then some df0
               else match df0.cols with
                 | [] => none
                 | c0 :: _ => some (renameCol c0 "date" df0)) with
        | none => Except.error ()
        | some df1 =>
          let df2 := setColNamed df1 "date" toDatetimeCell
          let df3 :=
            if df2.cols.contains "value" then df2
            else if (numericIdxs df2).isEmpty then
              appendCol df2 "value" (fun _ => Cell.num 0)
            else appendCol df2 "value" (fun r => Cell.num (rowSum (numericIdxs df2) r))
          Except.ok (dropna (selectCols df3 ["date", "value"]), eduOkMsg)
    else Except.error ()

/-- One feature row of the geo branch (lines 160-169): absent `coordinates`
defaults to `[None, None]`; a present but too-short coordinate list raises
IndexError at `coords[0]` / `coords[1]`. -/
def geoRow (g : GeoFeature) : Except Unit (List Cell) :=
  match (g.coordinates.getD [Cell.null, Cell.null]).get? 0,
        (g.coordinates.getD [Cell.null, Cell.null]).get? 1 with
  | some lon, some lat =>
    Except.ok [lon, lat, g.damage_count.getD (Cell.num 1), Cell.str (g.gname.getD "학교")]
  | _, _ => Except.error ()

def geoRowsAux : List GeoItem → Except Unit (List (List Cell))
  | [] => Except.ok []
  | GeoItem.bad :: _ => Except.error ()
  | GeoItem.feat g :: t =>
    match geoRow g, geoRowsAux t with
    | Except.ok r, Except.ok rs => Except.ok (r :: rs)
    | _, _ => Except.error ()

/-- The geo branch try body (lines 152-173).  `pd.DataFrame` of an empty row
list is an empty frame with no columns at all. -/
def geoTry : Fetch GeoJson → Except Unit (DataFrame × String)
  | Fetch.exn => Except.error ()
  | Fetch.ok status body =>
    if status = 200 then
      match body with
      | Except.error _ => Except.error ()
      | Except.ok GeoJson.nonDict => Except.error ()
      | Except.ok (GeoJson.dict feats) =>
        match geoRowsAux (feats.getD []) with
        | Except.error _ => Except.error ()
        | Except.ok rs =>
          if rs.isEmpty then Except.ok (⟨[], []⟩, geoOkMsg)
          else Except.ok (⟨["lon", "lat", "value", "name"], rs⟩, geoOkMsg)
    else Except.error ()

/-- The standardization loop (lines 184-188): for each of the two date/value
frames the `date` column is coerced in place with `to_datetime`; the
subsequent `dropna` result is bound to the loop variable only and discarded,
so it never reaches the returned frames. -/
def standardize (df : DataFrame) : DataFrame :=
  if df.cols.contains "date" then setColNamed df "date" toDatetimeCell else df

/-- Lines 87-188 of `load_official_datasets`: each branch substitutes its
fallback frame and failure message when its try body raises, then the
standardization loop coerces the `date` columns of the two date/value
frames in place (its `dropna` result is bound to the loop variable only
and discarded).  This part of the function raises nothing — every raise
point sits inside a try body. -/
def loadFrames (o : Outcomes) (rand : Nat → ℚ) : Frames :=
  let p := match nasaTry o.nasa with
    | Except.ok pr => pr
    | Except.error _ => (precipFallback rand, nasaFailMsg)
  let s := match eduTry o.edu with
    | Except.ok pr => pr
    | Except.error _ => (schoolActionsFallback, eduFailMsg)
  let g := match geoTry o.geo with
    | Except.ok pr => pr
    | Except.error _ => (geoFallback, geoFailMsg)
  ⟨standardize p.1, standardize s.1, g.1, [p.2, s.2, g.2]⟩

/-- `load_official_datasets` (lines 80-203), faithful: after the frames
are built, line 195 applies the future-date filter to the precipitation
frame and line 196 to the school-actions frame — both outside any
try/except — and the comparison raises TypeError (see
`remove_future_dates`), so the dict of line 198 is never built and the
exception propagates to the caller. -/
def load_official_datasets (o : Outcomes) (rand : Nat → ℚ) (cutoffDay : Nat) :
    Except PyError Bundle :=
  match remove_future_dates cutoffDay (loadFrames o rand).precip with
  | Except.error e => Except.error e
  | Except.ok p2 =>
    match remove_future_dates cutoffDay (loadFrames o rand).school with
    | Except.error e => Except.error e
    | Except.ok s2 =>
      Except.ok ⟨p2, s2, (loadFrames o rand).geo, (loadFrames o rand).messages⟩

/-- Modelled from the spec: the loader as the spec describes it
(section 4.4 step 5 and section 8) and as the code intends — the frames
of `loadFrames` with the future-date cutoff actually applied to the two
date/value series, the geo frame and messages passed through, and
`reset_index(drop=True)` the identity. -/
def load_official_datasets_spec (o : Outcomes) (rand : Nat → ℚ) (cutoffDay : Nat) : Bundle :=
  ⟨remove_future_dates_spec cutoffDay (loadFrames o rand).precip,
   remove_future_dates_spec cutoffDay (loadFrames o rand).school,
   (loadFrames o rand).geo,
   (loadFrames o rand).messages⟩

/-- The eleven hardcoded records of `build_user_input_dataset`
(lines 214-234), in insertion order with columns date, value, group, note. -/
def userRows : List (List Cell) :=
  [[Cell.date 20230716, Cell.num 24, Cell.str "휴업/원격/조치", Cell.str "2023년 7월 집중호우(뉴스)"],
   [Cell.date 20230809, Cell.num 5, Cell.str "휴업/원격/조치", Cell.str "태풍 카눈(강원도)"],
   [Cell.date 20250718, Cell.num 247, Cell.str "학사일정 조정", Cell.str "2025-07 전국 폭우(한겨레 기사)"],
   [Cell.date 20250319, Cell.num 12, Cell.str "휴업/원격/조치", Cell.str "2025-03 강원도 폭설(EBS)"],
   [Cell.date 20230716, Cell.num 11, Cell.str "청주 피해 학교", Cell.str "충북 청주 피해 학교수"],
   [Cell.date 20230716, Cell.num 3, Cell.str "진천 피해 학교", Cell.str "충북 진천"],
   [Cell.date 20230716, Cell.num 2, Cell.str "옥천 피해 학교", Cell.str "충북 옥천"],
   [Cell.date 20230716, Cell.num 2, Cell.str "영동 피해 학교", Cell.str "충북 영동"],
   [Cell.date 20230716, Cell.num 2, Cell.str "괴산 피해 학교", Cell.str "충북 괴산"],
   [Cell.date 20230716, Cell.num 1, Cell.str "제천 피해 학교", Cell.str "충북 제천"],
   [Cell.date 20230716, Cell.num 1, Cell.str "보은 피해 학교", Cell.str "충북 보은"]]

/-- The frame of `build_user_input_dataset` just before its future-date
filter: `to_datetime` on `date`, `dropna(subset=[date])`, then numeric
coercion of `value` with fill 0 and int cast (lines 235-239). -/
def build_user_input_frame : DataFrame :=
  setColNamed
    (dropnaDate (setColNamed ⟨["date", "value", "group", "note"], userRows⟩ "date" toDatetimeCell))
    "value" (fun c => astypeIntCell (fillnaZero (toNumericCell c)))

/-- `build_user_input_dataset` (lines 208-242), faithful: the function
builds `build_user_input_frame` and then line 241 filters it with
`df[df['date'] < CUTOFF]`.  The frame always carries its tz-naive `date`
column (hardcoded naive literals) while CUTOFF is tz-aware, so the
comparison raises TypeError on every call and the function never returns
a frame. -/
def build_user_input_dataset (cutoffDay : Nat) : Except PyError DataFrame :=
  Except.error PyError.typeError

/-- Modelled from the spec: `build_user_input_dataset` as the spec and the
code's comment at line 240 intend — the standardized hardcoded rows with
records at or past the UTC+9 midnight cutoff dropped. -/
def build_user_input_dataset_spec (cutoffDay : Nat) : DataFrame :=
  ⟨build_user_input_frame.cols, build_user_input_frame.rows.filter (fun r =>
    match getCell r (build_user_input_frame.cols.indexOf "date") with
    | Cell.date d => decide (d < cutoffDay)
    | _ => false)⟩

/-- The `date` cell of a row, read at the position pandas reads
`row[date]`. -/
def rowDate (df : DataFrame) (r : List Cell) : Cell :=
  getCell r (df.cols.indexOf "date")

/-- The geo frame as built by its branch, before the bundle is assembled:
the parsed frame on success, the literal fallback on failure. -/
def geoResult (o : Outcomes) : DataFrame :=
  match geoTry o.geo with
  | Except.ok pr => pr.1
  | Except.error _ => geoFallback

/-- The properties every frame entering the standardization loop enjoys on
the two date/value slots (branch output or fallback alike): well-formed,
has a `date` column, and every cell of every row is non-null. -/
def GoodSrc (df : DataFrame) : Prop :=
  df.WF ∧ df.cols.contains "date" = true ∧ ∀ r ∈ df.rows, ∀ cell ∈ r, cell ≠ Cell.null

/-- Does the second character list lead with the first one? -/
def leadsWith : List Char → List Char → Bool
  | [], _ => true
  | _ :: _, [] => false
  | a :: s, b :: t => a == b && leadsWith s t

/-- Substring test: does the second character list hold the first as a
contiguous run? -/
def listContains (neck : List Char) : List Char → Bool
  | [] => neck.isEmpty
  | a :: t => leadsWith neck (a :: t) || listContains neck t

/-- The education-branch body of the C5 counterexample: a well-formed CSV
response that simply has no `date` field. -/
def eduBodyNoDate : DataFrame := ⟨["region", "value"], [[Cell.str "x", Cell.num 3]]⟩

/-- Outcome where only the education fetch succeeds, returning
`eduBodyNoDate`. -/
def oC5 : Outcomes := ⟨Fetch.exn, Fetch.ok 200 (Except.ok eduBodyNoDate), Fetch.exn⟩

/-- Outcome where only the NASA fetch succeeds, with a JSON body carrying a
parseable date and a non-numeric string in the `precip` field. -/
def oC7 : Outcomes :=
  ⟨Fetch.ok 200 (Except.ok ⟨["date", "precip"], [[Cell.str "2020-01-02", Cell.str "hello"]]⟩),
   Fetch.exn, Fetch.exn⟩

/-- Outcome where only the geo fetch succeeds, with one feature that has
neither properties keys nor a `coordinates` entry (so `lon`/`lat` default
to None). -/
def oC10 : Outcomes :=
  ⟨Fetch.exn, Fetch.exn,
   Fetch.ok 200 (Except.ok (GeoJson.dict (some [GeoItem.feat ⟨none, none, none⟩])))⟩

/-- Modelled from the spec: the `st.cache_data` memoization wrapper lives
in the Streamlit runtime, not in src/streamlit_app.py.  Per the spec
(section 3 lifecycle, section 4 side effects) it keeps one value per
source descriptor for a bounded window; a repeated call inside the window
returns the cached value without running the wrapped computation (hence
without a new network attempt).  A cache entry is a stored value plus the
time it was stored. -/
structure CacheEntry (α : Type) where
  value : α
  storedAt : Nat
  deriving DecidableEq

/-- Modelled from the spec: one call through the memoization wrapper with
time-to-live `ttl` at time `now`.  The Bool of the result records whether
the wrapped computation (and so its network attempt) ran during this
call. -/
def cachedCall {α : Type} (ttl now : Nat) (compute : Unit → α)
    (entry : Option (CacheEntry α)) : α × CacheEntry α × Bool :=
  match entry with
  | some e =>
    if now - e.storedAt < ttl then (e.value, e, false)
    else (compute (), ⟨compute (), now⟩, true)
  | none => (compute (), ⟨compute (), now⟩, true)

/-- Modelled from the spec, extended with the runtime's behavior on a
raising computation: `st.cache_data` stores an entry only when the wrapped
function returns; an exception propagates to the caller and nothing is
cached, so the next call runs the computation (and its network attempt)
again.  The Bool records whether the computation ran during this call. -/
def cachedCallE {α : Type} (ttl now : Nat) (compute : Unit → Except PyError α)
    (entry : Option (CacheEntry α)) :
    Except PyError α × Option (CacheEntry α) × Bool :=
  match entry with
  | some e =>
    if now - e.storedAt < ttl then (Except.ok e.value, some e, false)
    else
      (compute (),
       (match compute () with
        | Except.ok v => some ⟨v, now⟩
        | Except.error _ => some e),
       true)
  | none =>
    (compute (),
     (match compute () with
      | Except.ok v => some ⟨v, now⟩
      | Except.error _ => none),
     true)

/-- One record of a NormalizedSeries as exported to CSV: the `(date,
value, group)` triple of the spec's data model (`date` in the yyyymmdd
encoding, `value` an integer as in the user dataset after `astype(int)`,
`group` a label). -/
structure NormRecord where
  date : Nat
  value : Int
  group : String
  deriving DecidableEq

def digitCh (d : Nat) : Char := Char.ofNat (48 + d)

/-- Little-endian decimal digits of `n`, as characters, with structural
fuel. -/
def printNatAux : Nat → Nat → List Char
  | 0, _ => []
  | fuel + 1, n => if n = 0 then [] else digitCh (n % 10) :: printNatAux fuel (n / 10)

/-- Decimal rendering of a natural number. -/
def printNat (n : Nat) : List Char :=
  if n = 0 then ['0'] else (printNatAux n n).reverse

/-- Decimal rendering of an integer, with a sign for negatives. -/
def printInt (v : Int) : List Char :=
  if v < 0 then '-' :: printNat v.natAbs else printNat v.natAbs

/-- Parsing of an all-digit field back to a natural number, as `read_csv`
types a numeric column. -/
def parseNatChars (cs : List Char) : Option Nat :=
  if cs ≠ [] ∧ cs.all Char.isDigit then
    some (cs.foldl (fun a c => 10 * a + (c.toNat - 48)) 0)
  else none

def parseIntChars (cs : List Char) : Option Int :=
  if cs.head? = some '-' then
    match parseNatChars cs.tail with
    | some n => some (-(n : Int))
    | none => none
  else
    match parseNatChars cs with
    | some n => some ((n : Int))
    | none => none

/-- One CSV line of a record: `date,value,group`.  Pandas prints the date
of a midnight timestamp in ISO dashed form; the round-trip claim is stated
modulo date formatting, and this model renders the yyyymmdd date key in
plain decimal (an injective formatting). -/
def renderRec (r : NormRecord) : List Char :=
  printNat r.date ++ ',' :: (printInt r.value ++ ',' :: r.group.data)

def csvHeader : List Char := "date,value,group".data

/-- Model of the payload built by `get_csv_download_link` (line 74):
`df.to_csv(index=False)` writes the header line and one newline-terminated
line per record with no index column, and `encode(utf-8-sig)` prefixes the
byte-order mark. -/
def get_csv_download_link (rows : List NormRecord) : List Char :=
  '\uFEFF' :: ((csvHeader :: rows.map renderRec).map (fun l => l ++ ['\n'])).flatten

/-- Split a character list at every occurrence of `c`. -/
def splitCh (c : Char) : List Char → List (List Char)
  | [] => [[]]
  | a :: t =>
    if a = c then [] :: splitCh c t
    else
      match splitCh c t with
      | [] => [[a]]
      | h :: r => (a :: h) :: r

def stripBom : List Char → List Char
  | '\uFEFF' :: t => t
  | cs => cs

def parseRecLine (cs : List Char) : Option NormRecord :=
  match splitCh ',' cs with
  | [df, vf, gf] =>
    match parseNatChars df, parseIntChars vf with
    | some d, some v => some ⟨d, v, String.mk gf⟩
    | _, _ => none
  | _ => none

/-- Model of re-parsing the CSV artifact as `pd.read_csv` would: decode
utf-8-sig (strip the mark), split into lines skipping blank ones, take the
first line as the header and type the fields. -/
def parse_csv (file : List Char) : Option (List NormRecord) :=
  match (splitCh '\n' (stripBom file)).filter (fun l => !l.isEmpty) with
  | [] => none
  | h :: rest => if h = csvHeader then rest.mapM parseRecLine else none

/-- A record whose group label is free of the separator characters, as
every label of this program is. -/
def GoodRec (r : NormRecord) : Prop :=
  ',' ∉ r.group.data ∧ '\n' ∉ r.group.data

instance GoodRec.dec (r : NormRecord) : Decidable (GoodRec r) :=
  inferInstanceAs (Decidable (',' ∉ r.group.data ∧ '\n' ∉ r.group.data))

/-! ### Lemmas about the embedded pandas operations -/

lemma contains_iff_mem (l : List String) (a : String) : l.contains a = true ↔ a ∈ l := by
  simp

lemma remove_future_dates_spec_cols (c : Nat) (df : DataFrame) :
    (remove_future_dates_spec c df).cols = df.cols := by
  unfold remove_future_dates_spec
  split <;> rfl

lemma mem_date_filter (i c : Nat) (rows : List (List Cell)) (r : List Cell)
    (h : r ∈ rows.filter (fun r =>
      match getCell r i with
      | Cell.date d => decide (d < c)
      | _ => false)) :
    r ∈ rows ∧ ∃ d, getCell r i = Cell.date d ∧ d < c := by
  rw [List.mem_filter] at h
  refine ⟨h.1, ?_⟩
  have h2 := h.2
  rcases hcell : getCell r i with _ | d | q | s <;> rw [hcell] at h2 <;> simp at h2
  exact ⟨d, rfl, h2⟩

lemma mem_remove_future_dates_spec (c : Nat) (df : DataFrame)
    (hd : df.cols.contains "date" = true) (r : List Cell)
    (hr : r ∈ (remove_future_dates_spec c df).rows) :
    r ∈ df.rows ∧ ∃ d, getCell r (df.cols.indexOf "date") = Cell.date d ∧ d < c := by
  unfold remove_future_dates_spec at hr
  rw [if_pos hd] at hr
  exact mem_date_filter _ _ _ _ hr

lemma remove_future_dates_spec_WF (c : Nat) (df : DataFrame) (h : df.WF) :
    (remove_future_dates_spec c df).WF := by
  unfold remove_future_dates_spec
  split
  · intro r hr
    exact h r (List.mem_filter.mp hr).1
  · exact h

lemma remove_future_dates_raises (c : Nat) (df : DataFrame)
    (hd : df.cols.contains "date" = true) :
    remove_future_dates c df = Except.error PyError.typeError := by
  unfold remove_future_dates
  rw [if_pos hd]

lemma selectCols_cols_length (df : DataFrame) (ns : List String) :
    (selectCols df ns).cols.length = (selIdxs df ns).length := by
  simp [selectCols]

lemma selectCols_WF (df : DataFrame) (ns : List String) : (selectCols df ns).WF := by
  intro r hr
  simp only [selectCols, List.mem_map] at hr
  obtain ⟨r0, _, rfl⟩ := hr
  simp [selectCols]

lemma selectCols_contains (df : DataFrame) (ns : List String) (n : String)
    (hn : n ∈ ns) (hd : n ∈ df.cols) : n ∈ (selectCols df ns).cols := by
  obtain ⟨i, hi, hEq⟩ := List.getElem_of_mem hd
  have hgetd : df.cols.getD i "" = n := by
    rw [List.getD_eq_getElem _ _ hi]
    exact hEq
  have hmemIdx : i ∈ selIdxs df ns := by
    unfold selIdxs
    refine List.mem_flatten.mpr ⟨(List.range df.cols.length).filter
      (fun j => df.cols.getD j "" == n), List.mem_map.mpr ⟨n, hn, rfl⟩, ?_⟩
    refine List.mem_filter.mpr ⟨List.mem_range.mpr hi, ?_⟩
    show (df.cols.getD i "" == n) = true
    rw [beq_iff_eq]
    exact hgetd
  refine List.mem_map.mpr ⟨i, hmemIdx, ?_⟩
  exact hgetd

lemma dropna_cols (df : DataFrame) : (dropna df).cols = df.cols := rfl

lemma mem_dropna (df : DataFrame) (r : List Cell) (hr : r ∈ (dropna df).rows) :
    r ∈ df.rows ∧ rowHasNull df.cols.length r = false := by
  unfold dropna at hr
  rw [List.mem_filter] at hr
  exact ⟨hr.1, by simpa using hr.2⟩

lemma dropna_WF (df : DataFrame) (h : df.WF) : (dropna df).WF := by
  intro r hr
  exact h r (mem_dropna df r hr).1

lemma nonnull_of_no_null (ncols : Nat) (r : List Cell) (hlen : r.length = ncols)
    (hnull : rowHasNull ncols r = false) : ∀ cell ∈ r, cell ≠ Cell.null := by
  intro cell hc
  obtain ⟨i, hi, hEq⟩ := List.getElem_of_mem hc
  have hfac : (getCell r i).isNull = false := by
    have := List.any_eq_false.mp (by simpa [rowHasNull] using hnull) i
      (List.mem_range.mpr (by omega))
    simpa using this
  intro hcontra
  rw [show getCell r i = cell from by rw [getCell, List.getD_eq_getElem _ _ hi]; exact hEq,
    hcontra] at hfac
  simp [Cell.isNull] at hfac

lemma setColNamed_cols (df : DataFrame) (c : String) (f : Cell → Cell) :
    (setColNamed df c f).cols = df.cols := rfl

lemma mem_setColNamed (df : DataFrame) (c : String) (f : Cell → Cell) (r' : List Cell)
    (h : r' ∈ (setColNamed df c f).rows) :
    ∃ r ∈ df.rows, r' = r.set (df.cols.indexOf c) (f (getCell r (df.cols.indexOf c))) := by
  simp only [setColNamed, List.mem_map] at h
  obtain ⟨r, hr, hEq⟩ := h
  exact ⟨r, hr, hEq.symm⟩

lemma setColNamed_WF (df : DataFrame) (c : String) (f : Cell → Cell) (h : df.WF) :
    (setColNamed df c f).WF := by
  intro r hr
  obtain ⟨r0, hr0, rfl⟩ := mem_setColNamed df c f r hr
  rw [setColNamed_cols, List.length_set]
  exact h r0 hr0

lemma standardize_cols (df : DataFrame) : (standardize df).cols = df.cols := by
  unfold standardize
  split <;> rfl

lemma standardize_WF (df : DataFrame) (h : df.WF) : (standardize df).WF := by
  unfold standardize
  split
  · exact setColNamed_WF df "date" toDatetimeCell h
  · exact h

lemma goodSrc_dropna_select (df : DataFrame) (ns : List String)
    (hd : "date" ∈ ns) (hdf : "date" ∈ df.cols) :
    GoodSrc (dropna (selectCols df ns)) := by
  refine ⟨dropna_WF _ (selectCols_WF df ns), ?_, ?_⟩
  · rw [show (dropna (selectCols df ns)).cols = (selectCols df ns).cols from rfl,
      contains_iff_mem]
    exact selectCols_contains df ns "date" hd hdf
  · intro r hr
    obtain ⟨hmem, hnull⟩ := mem_dropna _ r hr
    exact nonnull_of_no_null _ r (selectCols_WF df ns r hmem) hnull

lemma nasaTry_ok (f : Fetch DataFrame) (p : DataFrame × String)
    (h : nasaTry f = Except.ok p) : p.2 = nasaOkMsg ∧ GoodSrc p.1 := by
  cases f with
  | exn => simp [nasaTry] at h
  | ok st body =>
    simp only [nasaTry] at h
    split at h
    · cases body with
      | error e => simp at h
      | ok df =>
        simp only [] at h
        split at h
        · rename_i hguard
          rw [Except.ok.injEq] at h
          subst h
          refine ⟨rfl, goodSrc_dropna_select _ _ (by simp) ?_⟩
          have hdate : "date" ∈ df.cols := by
            have h2 : "date" ∈ df.cols ∧ "precip" ∈ df.cols := by simpa using hguard
            exact h2.1
          rw [show (setColNamed (renameCol "precip" "value" df) "date" toDatetimeCell).cols
              = (renameCol "precip" "value" df).cols from rfl]
          unfold renameCol
          obtain ⟨i, hi, hEq⟩ := List.getElem_of_mem hdate
          refine List.mem_map.mpr ⟨"date", ?_, rfl⟩
          exact hEq ▸ List.getElem_mem hi
        · simp at h
    · simp at h

lemma eduTry_ok (f : Fetch DataFrame) (p : DataFrame × String)
    (h : eduTry f = Except.ok p) : p.2 = eduOkMsg ∧ GoodSrc p.1 := by
  cases f with
  | exn => simp [eduTry] at h
  | ok st body =>
    simp only [eduTry] at h
    split at h
    · cases body with
      | error e => simp at h
      | ok df0 =>
        simp only [] at h
        split at h
        · simp at h
        · rename_i df1 hdf1
          have hdate1 : "date" ∈ df1.cols := by
            split at hdf1
            · rename_i hc
              rw [Option.some.injEq] at hdf1
              subst hdf1
              exact (contains_iff_mem _ _).mp hc
            · split at hdf1
              · simp at hdf1
              · rename_i c0 rest hcols
                rw [Option.some.injEq] at hdf1
                subst hdf1
                unfold renameCol
                rw [hcols]
                exact List.mem_map.mpr ⟨c0, List.mem_cons_self c0 rest, by simp⟩
          rw [Except.ok.injEq] at h
          subst h
          refine ⟨rfl, goodSrc_dropna_select _ _ (by simp) ?_⟩
          split
          · exact hdate1
          · split <;>
            · show "date" ∈ (setColNamed df1 "date" toDatetimeCell).cols ++ ["value"]
              exact List.mem_append_left _ hdate1
    · simp at h

lemma geoRowsAux_ok_len (items : List GeoItem) (rs : List (List Cell))
    (h : geoRowsAux items = Except.ok rs) : ∀ r ∈ rs, r.length = 4 := by
  induction items generalizing rs with
  | nil =>
    simp only [geoRowsAux, Except.ok.injEq] at h
    subst h
    simp
  | cons it t ih =>
    cases it with
    | bad => simp [geoRowsAux] at h
    | feat g =>
      simp only [geoRowsAux] at h
      split at h
      · rename_i r0 rs0 hrow haux
        rw [Except.ok.injEq] at h
        subst h
        intro r hr
        rcases List.mem_cons.mp hr with hEq | hmem
        · subst hEq
          unfold geoRow at hrow
          split at hrow
          · rw [Except.ok.injEq] at hrow
            subst hrow
            rfl
          · simp at hrow
        · exact ih rs0 haux r hmem
      · simp at h

lemma geoTry_ok (f : Fetch GeoJson) (p : DataFrame × String)
    (h : geoTry f = Except.ok p) :
    p.2 = geoOkMsg ∧ p.1.WF ∧ p.1.cols.contains "date" = false := by
  cases f with
  | exn => simp [geoTry] at h
  | ok st body =>
    simp only [geoTry] at h
    split at h
    · cases body with
      | error e => simp at h
      | ok gj =>
        cases gj with
        | nonDict => simp at h
        | dict feats =>
          simp only [] at h
          split at h
          · simp at h
          · rename_i rs0 haux
            split at h <;> rw [Except.ok.injEq] at h <;> subst h
            · exact ⟨rfl, by intro r hr; simp at hr, rfl⟩
            · refine ⟨rfl, ?_, rfl⟩
              intro r hr
              exact geoRowsAux_ok_len _ _ haux r hr
    · simp at h

lemma precipFallback_good (rand : Nat → ℚ) : GoodSrc (precipFallback rand) := by
  refine ⟨?_, rfl, ?_⟩
  · intro r hr
    simp only [precipFallback, List.mem_map] at hr
    obtain ⟨i, _, rfl⟩ := hr
    rfl
  · intro r hr
    simp only [precipFallback, List.mem_map] at hr
    obtain ⟨i, _, rfl⟩ := hr
    intro cell hc
    rcases List.mem_cons.mp hc with hEq | hmem
    · subst hEq; simp
    · rcases List.mem_cons.mp hmem with hEq | hmem2
      · subst hEq; simp
      · simp at hmem2

lemma schoolActionsFallback_good : GoodSrc schoolActionsFallback := by
  refine ⟨?_, rfl, ?_⟩
  · intro r hr
    fin_cases hr <;> rfl
  · intro r hr
    fin_cases hr <;> decide

lemma geoFallback_WF : geoFallback.WF := by
  intro r hr
  fin_cases hr <;> rfl

/-- The two date/value slots of the pre-filter state are the standardized
branch-or-fallback frame, and that source frame is good. -/
lemma loadFrames_precip_shape (o : Outcomes) (rand : Nat → ℚ) :
    ∃ Y : DataFrame, (loadFrames o rand).precip = standardize Y ∧ GoodSrc Y := by
  cases hn : nasaTry o.nasa with
  | ok p =>
    exact ⟨p.1, by simp [loadFrames, hn], (nasaTry_ok _ _ hn).2⟩
  | error e =>
    exact ⟨precipFallback rand, by simp [loadFrames, hn], precipFallback_good rand⟩

lemma loadFrames_school_shape (o : Outcomes) (rand : Nat → ℚ) :
    ∃ Y : DataFrame, (loadFrames o rand).school = standardize Y ∧ GoodSrc Y := by
  cases he : eduTry o.edu with
  | ok p =>
    exact ⟨p.1, by simp [loadFrames, he], (eduTry_ok _ _ he).2⟩
  | error e =>
    exact ⟨schoolActionsFallback, by simp [loadFrames, he], schoolActionsFallback_good⟩

lemma load_spec_precip_shape (o : Outcomes) (rand : Nat → ℚ) (c : Nat) :
    ∃ Y : DataFrame,
      (load_official_datasets_spec o rand c).precip_ts
        = remove_future_dates_spec c (standardize Y) ∧ GoodSrc Y := by
  obtain ⟨Y, hEq, hg⟩ := loadFrames_precip_shape o rand
  exact ⟨Y, by rw [load_official_datasets_spec, hEq], hg⟩

lemma load_spec_school_shape (o : Outcomes) (rand : Nat → ℚ) (c : Nat) :
    ∃ Y : DataFrame,
      (load_official_datasets_spec o rand c).school_actions
        = remove_future_dates_spec c (standardize Y) ∧ GoodSrc Y := by
  obtain ⟨Y, hEq, hg⟩ := loadFrames_school_shape o rand
  exact ⟨Y, by rw [load_official_datasets_spec, hEq], hg⟩

/-- The precipitation frame entering line 195 always has a `date` column,
so the faithful loader raises TypeError on every outcome, draw oracle and
cutoff. -/
lemma load_always_raises (o : Outcomes) (rand : Nat → ℚ) (c : Nat) :
    load_official_datasets o rand c = Except.error PyError.typeError := by
  obtain ⟨Y, hEq, hg⟩ := loadFrames_precip_shape o rand
  have hcont : (loadFrames o rand).precip.cols.contains "date" = true := by
    rw [hEq, standardize_cols]
    exact hg.2.1
  unfold load_official_datasets
  rw [remove_future_dates_raises c _ hcont]

/-- Every row surviving the standardize-then-intended-filter pipeline
applied to a good source frame carries a non-NaT date strictly below the
cutoff at the `date` position and no missing value in any cell. -/
lemma rows_good_after_pipeline (Y : DataFrame) (c : Nat) (hg : GoodSrc Y) :
    ∀ r ∈ (remove_future_dates_spec c (standardize Y)).rows,
      (∃ d, getCell r (Y.cols.indexOf "date") = Cell.date d ∧ d < c)
        ∧ ∀ cell ∈ r, cell ≠ Cell.null := by
  obtain ⟨hwf, hd, hnn⟩ := hg
  intro r hr
  have hd2 : (standardize Y).cols.contains "date" = true := by
    rw [standardize_cols]
    exact hd
  obtain ⟨hmem, d, hcell, hdc⟩ := mem_remove_future_dates_spec c (standardize Y) hd2 r hr
  rw [standardize_cols] at hcell
  have hstd : standardize Y = setColNamed Y "date" toDatetimeCell := by
    unfold standardize
    rw [if_pos hd]
  rw [hstd] at hmem
  obtain ⟨r0, hr0, rfl⟩ := mem_setColNamed _ _ _ _ hmem
  refine ⟨⟨d, hcell, hdc⟩, ?_⟩
  intro cell hc
  rcases List.mem_or_eq_of_mem_set hc with hold | hnew
  · exact hnn r0 hr0 cell hold
  · have hi : Y.cols.indexOf "date" < r0.length := by
      rw [hwf r0 hr0]
      exact List.indexOf_lt_length.mpr ((contains_iff_mem _ _).mp hd)
    have hset : getCell (r0.set (Y.cols.indexOf "date")
        (toDatetimeCell (getCell r0 (Y.cols.indexOf "date")))) (Y.cols.indexOf "date")
        = toDatetimeCell (getCell r0 (Y.cols.indexOf "date")) := by
      unfold getCell
      rw [List.getD_eq_getElem _ _ (by simpa using hi)]
      exact List.getElem_set_self (by simpa using hi)
    rw [hset] at hcell
    rw [hnew, hcell]
    intro hcontra
    exact Cell.noConfusion hcontra

lemma standardize_precipFallback (rand : Nat → ℚ) :
    standardize (precipFallback rand) = precipFallback rand := by
  unfold standardize
  rw [if_pos (show (precipFallback rand).cols.contains "date" = true from rfl)]
  unfold setColNamed precipFallback
  rw [DataFrame.mk.injEq]
  refine ⟨rfl, ?_⟩
  rw [List.map_map]
  exact List.map_congr_left (fun i _ => rfl)

lemma standardize_schoolActionsFallback :
    standardize schoolActionsFallback = schoolActionsFallback := by
  decide

/-! ### Claim theorems -/

/-- Claim C1 (code_bug): the claimed invariant — every record of every
returned table carries a date strictly before the UTC+9 midnight cutoff —
is the code's documented intent, but the code's filter raises TypeError
(tz-naive date column against the tz-aware CUTOFF, lines 192 and 241,
outside every try), so neither load ever returns a table: both faithful
loads evaluate to the TypeError on every input.  Under the spec-intended
day-key comparison the invariant holds for all three series. -/
theorem claim_C1 (o : Outcomes) (rand : Nat → ℚ) (c : Nat) :
    load_official_datasets o rand c = Except.error PyError.typeError
    ∧ build_user_input_dataset c = Except.error PyError.typeError
    ∧ (∀ r ∈ (load_official_datasets_spec o rand c).precip_ts.rows,
      ∃ d, rowDate (load_official_datasets_spec o rand c).precip_ts r = Cell.date d ∧ d < c)
    ∧ (∀ r ∈ (load_official_datasets_spec o rand c).school_actions.rows,
      ∃ d, rowDate (load_official_datasets_spec o rand c).school_actions r = Cell.date d ∧ d < c)
    ∧ (∀ r ∈ (build_user_input_dataset_spec c).rows,
      ∃ d, rowDate (build_user_input_dataset_spec c) r = Cell.date d ∧ d < c) := by
  refine ⟨load_always_raises o rand c, rfl, ?_, ?_, ?_⟩
  · obtain ⟨Y, hEq, hg⟩ := load_spec_precip_shape o rand c
    intro r hr
    rw [hEq] at hr
    obtain ⟨⟨d, hcell, hdc⟩, _⟩ := rows_good_after_pipeline Y c hg r hr
    refine ⟨d, ?_, hdc⟩
    rw [rowDate, hEq, remove_future_dates_spec_cols, standardize_cols]
    exact hcell
  · obtain ⟨Y, hEq, hg⟩ := load_spec_school_shape o rand c
    intro r hr
    rw [hEq] at hr
    obtain ⟨⟨d, hcell, hdc⟩, _⟩ := rows_good_after_pipeline Y c hg r hr
    refine ⟨d, ?_, hdc⟩
    rw [rowDate, hEq, remove_future_dates_spec_cols, standardize_cols]
    exact hcell
  · intro r hr
    obtain ⟨_, d, hcell, hdc⟩ :=
      mem_date_filter (build_user_input_frame.cols.indexOf "date") c
        build_user_input_frame.rows r hr
    exact ⟨d, hcell, hdc⟩

/-- Claim C2 (code_bug): the claim — the load never propagates an
exception and always returns a usable bundle plus messages — is the
program's own documented policy (module docstring line 20, function
docstring line 84), but it is false of the code: on every fetch outcome
the future-date filter at line 195 compares the tz-naive precipitation
date column with the tz-aware CUTOFF and raises TypeError outside any
try/except, so the exception propagates and no bundle is returned.  The
try bodies themselves are fully intercepted: under the spec-intended
filter the bundle is three well-formed tables plus one
success-or-failure message per source. -/
theorem claim_C2 (o : Outcomes) (rand : Nat → ℚ) (c : Nat) :
    load_official_datasets o rand c = Except.error PyError.typeError
    ∧ ∃ m1 m2 m3,
      (load_official_datasets_spec o rand c).messages = [m1, m2, m3]
      ∧ (m1 = nasaOkMsg ∨ m1 = nasaFailMsg)
      ∧ (m2 = eduOkMsg ∨ m2 = eduFailMsg)
      ∧ (m3 = geoOkMsg ∨ m3 = geoFailMsg)
      ∧ (load_official_datasets_spec o rand c).precip_ts.WF
      ∧ (load_official_datasets_spec o rand c).school_actions.WF
      ∧ (load_official_datasets_spec o rand c).school_damage_geo.WF := by
  have hpwf : (load_official_datasets_spec o rand c).precip_ts.WF := by
    obtain ⟨Y, hEq, hg⟩ := load_spec_precip_shape o rand c
    rw [hEq]
    exact remove_future_dates_spec_WF c _ (standardize_WF Y hg.1)
  have hswf : (load_official_datasets_spec o rand c).school_actions.WF := by
    obtain ⟨Y, hEq, hg⟩ := load_spec_school_shape o rand c
    rw [hEq]
    exact remove_future_dates_spec_WF c _ (standardize_WF Y hg.1)
  have hgwf : (load_official_datasets_spec o rand c).school_damage_geo.WF := by
    cases hg : geoTry o.geo with
    | ok p =>
      have := (geoTry_ok _ _ hg).2.1
      simpa [load_official_datasets_spec, loadFrames, hg] using this
    | error e =>
      simpa [load_official_datasets_spec, loadFrames, hg] using geoFallback_WF
  refine ⟨load_always_raises o rand c, _, _, _, rfl, ?_, ?_, ?_, hpwf, hswf, hgwf⟩
  · cases hn : nasaTry o.nasa with
    | ok p =>
      left
      simpa [hn] using (nasaTry_ok _ _ hn).1
    | error e => simp [hn]
  · cases he : eduTry o.edu with
    | ok p =>
      left
      simpa [he] using (eduTry_ok _ _ he).1
    | error e => simp [he]
  · cases hg : geoTry o.geo with
    | ok p =>
      left
      simpa [hg] using (geoTry_ok _ _ hg).1
    | error e => simp [hg]

/-- Claim C3 counterexample: at an all-failing outcome the load returns
no table whatsoever — it raises TypeError in the future-date filter — so
no returned table is byte-identical to any fallback; moreover the
precipitation fallback the loader builds internally is not a fixed
literal: two loads whose fetches fail identically hold different
precipitation frames when the `np.random.uniform` draws differ. -/
theorem claim_C3_cex :
    load_official_datasets ⟨Fetch.exn, Fetch.exn, Fetch.exn⟩ (fun _ => 20) 20991231
      = Except.error PyError.typeError
    ∧ (loadFrames ⟨Fetch.exn, Fetch.exn, Fetch.exn⟩ (fun _ => 20)).precip
      ≠ (loadFrames ⟨Fetch.exn, Fetch.exn, Fetch.exn⟩ (fun _ => 21)).precip := by
  exact ⟨by decide, by decide⟩

/-- Claim C3 (amended): when all three fetches fail, the loader
substitutes the fallbacks internally — the school-action and geo frames
are the literal fallback tables verbatim, while the precipitation frame
has the fixed fallback dates but values freshly drawn from the call's
random oracle plus the trend term — and records the three failure
messages; the future-date filter then raises TypeError, so none of these
tables is ever returned to the caller. -/
theorem claim_C3 (o : Outcomes) (rand : Nat → ℚ) (c : Nat)
    (hn : nasaTry o.nasa = Except.error ()) (he : eduTry o.edu = Except.error ())
    (hg : geoTry o.geo = Except.error ()) :
    (loadFrames o rand).school = schoolActionsFallback
    ∧ (loadFrames o rand).geo = geoFallback
    ∧ (loadFrames o rand).precip = precipFallback rand
    ∧ (loadFrames o rand).messages = [nasaFailMsg, eduFailMsg, geoFailMsg]
    ∧ load_official_datasets o rand c = Except.error PyError.typeError := by
  refine ⟨?_, ?_, ?_, ?_, load_always_raises o rand c⟩ <;>
    simp [loadFrames, hn, he, hg,
      standardize_schoolActionsFallback, standardize_precipFallback]

/-- Claim C3 witness: the amended statement evaluated at an all-failing
outcome with a concrete draw oracle and cutoff. -/
theorem claim_C3_witness :
    (nasaTry Fetch.exn = Except.error () ∧ eduTry Fetch.exn = Except.error ()
      ∧ geoTry Fetch.exn = Except.error ())
    ∧ ((loadFrames ⟨Fetch.exn, Fetch.exn, Fetch.exn⟩ (fun _ => 20)).school
        = schoolActionsFallback
      ∧ (loadFrames ⟨Fetch.exn, Fetch.exn, Fetch.exn⟩ (fun _ => 20)).geo = geoFallback
      ∧ (loadFrames ⟨Fetch.exn, Fetch.exn, Fetch.exn⟩ (fun _ => 20)).precip
        = precipFallback (fun _ => 20)
      ∧ (loadFrames ⟨Fetch.exn, Fetch.exn, Fetch.exn⟩ (fun _ => 20)).messages
        = [nasaFailMsg, eduFailMsg, geoFailMsg]
      ∧ load_official_datasets ⟨Fetch.exn, Fetch.exn, Fetch.exn⟩ (fun _ => 20) 20991231
        = Except.error PyError.typeError) :=
  ⟨⟨rfl, rfl, rfl⟩, claim_C3 ⟨Fetch.exn, Fetch.exn, Fetch.exn⟩ (fun _ => 20) 20991231 rfl rfl rfl⟩

/-- Claim C4 (code_bug): the scenario describes the filter the spec and
the code's comments intend, and under the spec-intended day-key
comparison any cutoff past the four early dates and strictly before
2025-07-18 does yield exactly the 4-row table excluding the 2025-07-18
record; the code's filter, however, raises TypeError on the fallback
frame (tz-naive dates against the tz-aware CUTOFF) and never yields any
table. -/
theorem claim_C4 (c : Nat) (h1 : 20250319 < c) (h2 : c < 20250718) :
    remove_future_dates c schoolActionsFallback = Except.error PyError.typeError
    ∧ remove_future_dates_spec c schoolActionsFallback =
      ⟨["date", "value"],
       [[Cell.date 20230716, Cell.num 24],
        [Cell.date 20230810, Cell.num 5],
        [Cell.date 20240720, Cell.num 40],
        [Cell.date 20250319, Cell.num 12]]⟩ := by
  have e1 : 20230716 < c := by omega
  have e2 : 20230810 < c := by omega
  have e3 : 20240720 < c := by omega
  have e4 : ¬(20250718 < c) := by omega
  refine ⟨rfl, ?_⟩
  simp [remove_future_dates_spec, schoolActionsFallback, List.filter, getCell,
    e1, e2, e3, e4, h1]

/-- Claim C4 witness: both filters evaluated at the concrete cutoff day
2025-04-01. -/
theorem claim_C4_witness :
    20250319 < 20250401 ∧ 20250401 < 20250718
    ∧ remove_future_dates 20250401 schoolActionsFallback = Except.error PyError.typeError
    ∧ remove_future_dates_spec 20250401 schoolActionsFallback =
      ⟨["date", "value"],
       [[Cell.date 20230716, Cell.num 24],
        [Cell.date 20230810, Cell.num 5],
        [Cell.date 20240720, Cell.num 40],
        [Cell.date 20250319, Cell.num 12]]⟩ :=
  ⟨by decide, by decide, (claim_C4 20250401 (by decide) (by decide)).1,
   (claim_C4 20250401 (by decide) (by decide)).2⟩

/-- Claim C5 counterexample: a successful education fetch whose CSV body
lacks the `date` field is not treated like an HTTP failure.  The branch
renames the first column to `date`, coerces it (to NaT here), drops the
rows, and keeps an empty frame with a success message — the fallback is
never substituted — and the loader then raises TypeError in the
future-date filter, so no fallback table is returned either. -/
theorem claim_C5_cex :
    (loadFrames oC5 (fun _ => 0)).school = ⟨["date", "value"], []⟩
    ∧ (loadFrames oC5 (fun _ => 0)).school ≠ schoolActionsFallback
    ∧ (loadFrames oC5 (fun _ => 0)).messages.getD 1 "" = eduOkMsg
    ∧ load_official_datasets oC5 (fun _ => 0) 20991231 = Except.error PyError.typeError := by
  exact ⟨by decide, by decide, by decide, by decide⟩

/-- Claim C5 (amended): for the NASA source the missing-field handling of
the claim holds at the substitution level — a 200 response whose decoded
body lacks the `date` or `precip` column raises inside the try and is
handled exactly like an HTTP failure, substituting the precipitation
fallback frame and recording the NASA failure message — though the loader
subsequently raises TypeError in the future-date filter and returns
nothing.  (For the education source the counterexample above shows a body
without `date` is instead normalized best-effort under a success
message.) -/
theorem claim_C5 (rand : Nat → ℚ) (c : Nat) (df : DataFrame)
    (f2 : Fetch DataFrame) (f3 : Fetch GeoJson)
    (h : (df.cols.contains "date" && df.cols.contains "precip") = false) :
    (loadFrames ⟨Fetch.ok 200 (Except.ok df), f2, f3⟩ rand).precip = precipFallback rand
    ∧ (loadFrames ⟨Fetch.ok 200 (Except.ok df), f2, f3⟩ rand).messages.getD 0 ""
      = nasaFailMsg
    ∧ load_official_datasets ⟨Fetch.ok 200 (Except.ok df), f2, f3⟩ rand c
      = Except.error PyError.typeError := by
  have hn : nasaTry (Fetch.ok 200 (Except.ok df)) = Except.error () := by
    have h2 : ¬("date" ∈ df.cols ∧ "precip" ∈ df.cols) := by
      intro hc
      rw [Bool.and_eq_false_iff] at h
      rcases h with h | h
      · have h3 : df.cols.contains "date" = true := (contains_iff_mem _ _).mpr hc.1
        rw [h] at h3
        exact Bool.noConfusion h3
      · have h3 : df.cols.contains "precip" = true := (contains_iff_mem _ _).mpr hc.2
        rw [h] at h3
        exact Bool.noConfusion h3
    simp [nasaTry]
    intro hd hp
    exact absurd ⟨hd, hp⟩ h2
  refine ⟨?_, ?_, load_always_raises _ rand c⟩ <;>
    simp [loadFrames, hn, standardize_precipFallback]

/-- Claim C5 witness: the amended statement evaluated at a concrete body
with neither required column. -/
theorem claim_C5_witness :
    ((DataFrame.cols ⟨["foo"], []⟩).contains "date"
        && (DataFrame.cols ⟨["foo"], []⟩).contains "precip") = false
    ∧ ((loadFrames ⟨Fetch.ok 200 (Except.ok ⟨["foo"], []⟩), Fetch.exn, Fetch.exn⟩
          (fun _ => 5)).precip = precipFallback (fun _ => 5)
      ∧ (loadFrames ⟨Fetch.ok 200 (Except.ok ⟨["foo"], []⟩), Fetch.exn, Fetch.exn⟩
          (fun _ => 5)).messages.getD 0 "" = nasaFailMsg
      ∧ load_official_datasets ⟨Fetch.ok 200 (Except.ok ⟨["foo"], []⟩), Fetch.exn, Fetch.exn⟩
          (fun _ => 5) 20991231 = Except.error PyError.typeError) :=
  ⟨by decide, claim_C5 (fun _ => 5) 20991231 ⟨["foo"], []⟩ Fetch.exn Fetch.exn (by decide)⟩

/-- Claim C6 (code_bug): the claimed handling of a non-200 status is what
the code implements up to the return: the failing source's fallback frame
is substituted and a status message recorded that names the source (NASA,
교육부, 지리) and carries the 실패 (failure) marker; but the loader then
raises TypeError in the future-date filter (line 195, outside any try),
so the fallback table and message are never returned to the caller. -/
theorem claim_C6 (rand : Nat → ℚ) (c s : Nat) (hs : s ≠ 200)
    (b1 b2 : Except Unit DataFrame) (b3 : Except Unit GeoJson) (o : Outcomes) :
    ((loadFrames ⟨Fetch.ok s b1, o.edu, o.geo⟩ rand).precip = precipFallback rand
      ∧ (loadFrames ⟨Fetch.ok s b1, o.edu, o.geo⟩ rand).messages.getD 0 ""
        = nasaFailMsg)
    ∧ ((loadFrames ⟨o.nasa, Fetch.ok s b2, o.geo⟩ rand).school = schoolActionsFallback
      ∧ (loadFrames ⟨o.nasa, Fetch.ok s b2, o.geo⟩ rand).messages.getD 1 ""
        = eduFailMsg)
    ∧ ((loadFrames ⟨o.nasa, o.edu, Fetch.ok s b3⟩ rand).geo = geoFallback
      ∧ (loadFrames ⟨o.nasa, o.edu, Fetch.ok s b3⟩ rand).messages.getD 2 ""
        = geoFailMsg)
    ∧ listContains "실패".data nasaFailMsg.data = true
    ∧ listContains "NASA".data nasaFailMsg.data = true
    ∧ listContains "실패".data eduFailMsg.data = true
    ∧ listContains "교육부".data eduFailMsg.data = true
    ∧ listContains "실패".data geoFailMsg.data = true
    ∧ listContains "지리".data geoFailMsg.data = true
    ∧ load_official_datasets ⟨Fetch.ok s b1, o.edu, o.geo⟩ rand c
      = Except.error PyError.typeError := by
  have hn : nasaTry (Fetch.ok s b1) = Except.error () := by
    simp only [nasaTry]
    rw [if_neg hs]
  have he : eduTry (Fetch.ok s b2) = Except.error () := by
    simp only [eduTry]
    rw [if_neg hs]
  have hg : geoTry (Fetch.ok s b3) = Except.error () := by
    simp only [geoTry]
    rw [if_neg hs]
  refine ⟨⟨?_, ?_⟩, ⟨?_, ?_⟩, ⟨?_, ?_⟩, by decide, by decide, by decide, by decide,
    by decide, by decide, load_always_raises _ rand c⟩
  · simp [loadFrames, hn, standardize_precipFallback]
  · simp [loadFrames, hn]
  · simp [loadFrames, he, standardize_schoolActionsFallback]
  · simp [loadFrames, he]
  · simp [loadFrames, hg]
  · simp [loadFrames, hg]

/-- Claim C6 witness: the statement evaluated at status 500 with concrete
bodies, oracle and cutoff. -/
theorem claim_C6_witness :
    (500 : Nat) ≠ 200
    ∧ (loadFrames ⟨Fetch.ok 500 (Except.error ()), Fetch.exn, Fetch.exn⟩ (fun _ => 7)).precip
      = precipFallback (fun _ => 7)
    ∧ (loadFrames ⟨Fetch.exn, Fetch.ok 500 (Except.error ()), Fetch.exn⟩ (fun _ => 7)).school
      = schoolActionsFallback
    ∧ (loadFrames ⟨Fetch.exn, Fetch.exn, Fetch.ok 500 (Except.error ())⟩ (fun _ => 7)).geo
      = geoFallback
    ∧ load_official_datasets ⟨Fetch.ok 500 (Except.error ()), Fetch.exn, Fetch.exn⟩
        (fun _ => 7) 20991231 = Except.error PyError.typeError :=
  ⟨by decide,
   ((claim_C6 (fun _ => 7) 20991231 500 (by decide) (Except.error ()) (Except.error ())
      (Except.error ()) ⟨Fetch.exn, Fetch.exn, Fetch.exn⟩).1).1,
   (((claim_C6 (fun _ => 7) 20991231 500 (by decide) (Except.error ()) (Except.error ())
      (Except.error ()) ⟨Fetch.exn, Fetch.exn, Fetch.exn⟩).2).1).1,
   ((((claim_C6 (fun _ => 7) 20991231 500 (by decide) (Except.error ()) (Except.error ())
      (Except.error ()) ⟨Fetch.exn, Fetch.exn, Fetch.exn⟩).2).2).1).1,
   (claim_C6 (fun _ => 7) 20991231 500 (by decide) (Except.error ()) (Except.error ())
      (Except.error ()) ⟨Fetch.exn, Fetch.exn, Fetch.exn⟩).2.2.2.2.2.2.2.2.2⟩

/-- Claim C7 counterexample: a successful NASA fetch whose `precip` field
holds a string leaves a record whose value is the string itself in the
frame the loader builds — no numeric coercion is applied on that path, so
the invariant "every record has a numeric value" fails on the series the
loader produces; in fact no series is returned at all, the loader raising
TypeError in the future-date filter. -/
theorem claim_C7_cex :
    (loadFrames oC7 (fun _ => 0)).precip
      = ⟨["date", "value"], [[Cell.date 20200102, Cell.str "hello"]]⟩
    ∧ ((loadFrames oC7 (fun _ => 0)).precip.rows.all
        (fun r => (getCell r 1).isNum)) = false
    ∧ load_official_datasets oC7 (fun _ => 0) 20991231 = Except.error PyError.typeError := by
  exact ⟨by decide, by decide, by decide⟩

/-- Claim C7 (amended): under the spec-intended pipeline every record of
every series has a non-null `date` and a non-null `value` — rows whose
date or value fails to parse (NaT / NaN) are dropped, never retained as
nulls — and the user-input dataset additionally guarantees a numeric
value; numericity of remote `value` fields is not enforced (see the
counterexample), and the faithful loads in fact raise TypeError in the
future-date filter, returning no series at all. -/
theorem claim_C7 (o : Outcomes) (rand : Nat → ℚ) (c : Nat) :
    (∀ r ∈ (load_official_datasets_spec o rand c).precip_ts.rows,
      ∀ cell ∈ r, cell ≠ Cell.null)
    ∧ (∀ r ∈ (load_official_datasets_spec o rand c).school_actions.rows,
      ∀ cell ∈ r, cell ≠ Cell.null)
    ∧ (∀ r ∈ (build_user_input_dataset_spec c).rows,
        (∃ d, rowDate (build_user_input_dataset_spec c) r = Cell.date d)
        ∧ (getCell r 1).isNum = true)
    ∧ load_official_datasets o rand c = Except.error PyError.typeError
    ∧ build_user_input_dataset c = Except.error PyError.typeError := by
  refine ⟨?_, ?_, ?_, load_always_raises o rand c, rfl⟩
  · obtain ⟨Y, hEq, hg⟩ := load_spec_precip_shape o rand c
    rw [hEq]
    intro r hr
    exact (rows_good_after_pipeline Y c hg r hr).2
  · obtain ⟨Y, hEq, hg⟩ := load_spec_school_shape o rand c
    rw [hEq]
    intro r hr
    exact (rows_good_after_pipeline Y c hg r hr).2
  · intro r hr
    obtain ⟨hmem, d, hcell, _⟩ :=
      mem_date_filter (build_user_input_frame.cols.indexOf "date") c
        build_user_input_frame.rows r hr
    refine ⟨⟨d, hcell⟩, ?_⟩
    have hnum : ∀ r ∈ build_user_input_frame.rows, (getCell r 1).isNum = true := by decide
    exact hnum r hmem

/-- Claim C8 counterexample: the memoization stores an entry only when
the wrapped computation returns, and every real load raises TypeError;
so a first call at time 0 propagates the exception and caches nothing,
and a second call 10 units later — well inside the hour window — runs the
computation (and its network attempt) again, refuting the claimed
no-second-attempt idempotence. -/
theorem claim_C8_cex :
    (cachedCallE 3600 0 (fun _ =>
        load_official_datasets ⟨Fetch.exn, Fetch.exn, Fetch.exn⟩ (fun _ => 20) 20991231)
        none).1 = Except.error PyError.typeError
    ∧ (cachedCallE 3600 0 (fun _ =>
        load_official_datasets ⟨Fetch.exn, Fetch.exn, Fetch.exn⟩ (fun _ => 20) 20991231)
        none).2.1 = none
    ∧ (cachedCallE 3600 10 (fun _ =>
        load_official_datasets ⟨Fetch.exn, Fetch.exn, Fetch.exn⟩ (fun _ => 20) 20991231)
        (cachedCallE 3600 0 (fun _ =>
          load_official_datasets ⟨Fetch.exn, Fetch.exn, Fetch.exn⟩ (fun _ => 20) 20991231)
          none).2.1).2.2 = true := by
  exact ⟨by decide, by decide, by decide⟩

/-- Claim C8 (amended): because every faithful load raises, the first
cached call propagates the TypeError, stores no entry, and a repeated
call within the window performs a fresh computation (hence a new network
attempt) and raises again; the claimed idempotence holds only for the
spec-intended, non-raising loader, whose second call within the window
returns the identical bundle with no new attempt. -/
theorem claim_C8 (o : Outcomes) (rand : Nat → ℚ) (c ttl t1 t2 : Nat)
    (h : t2 - t1 < ttl) :
    (cachedCallE ttl t1 (fun _ => load_official_datasets o rand c) none).2.1 = none
    ∧ (cachedCallE ttl t2 (fun _ => load_official_datasets o rand c)
        (cachedCallE ttl t1 (fun _ => load_official_datasets o rand c) none).2.1).2.2
      = true
    ∧ (cachedCall ttl t1 (fun _ => load_official_datasets_spec o rand c) none).2.2 = true
    ∧ (cachedCall ttl t2 (fun _ => load_official_datasets_spec o rand c)
        (some (cachedCall ttl t1 (fun _ => load_official_datasets_spec o rand c) none).2.1)).1
      = (cachedCall ttl t1 (fun _ => load_official_datasets_spec o rand c) none).1
    ∧ (cachedCall ttl t2 (fun _ => load_official_datasets_spec o rand c)
        (some (cachedCall ttl t1 (fun _ => load_official_datasets_spec o rand c) none).2.1)).2.2
      = false := by
  refine ⟨?_, ?_, rfl, ?_, ?_⟩
  · simp [cachedCallE, load_always_raises]
  · simp [cachedCallE, load_always_raises]
  · simp [cachedCall, h]
  · simp [cachedCall, h]

/-- Claim C8 witness: two cached calls 10 time units apart under the
3600-unit window, at a concrete outcome, oracle and cutoff. -/
theorem claim_C8_witness :
    10 - 0 < 3600
    ∧ ((cachedCallE 3600 0 (fun _ =>
        load_official_datasets ⟨Fetch.exn, Fetch.exn, Fetch.exn⟩ (fun _ => 20) 20991231)
        none).2.1 = none
    ∧ (cachedCallE 3600 10 (fun _ =>
        load_official_datasets ⟨Fetch.exn, Fetch.exn, Fetch.exn⟩ (fun _ => 20) 20991231)
        (cachedCallE 3600 0 (fun _ =>
          load_official_datasets ⟨Fetch.exn, Fetch.exn, Fetch.exn⟩ (fun _ => 20) 20991231)
          none).2.1).2.2 = true
    ∧ (cachedCall 3600 0 (fun _ =>
        load_official_datasets_spec ⟨Fetch.exn, Fetch.exn, Fetch.exn⟩ (fun _ => 20) 20991231)
        none).2.2 = true
    ∧ (cachedCall 3600 10 (fun _ =>
        load_official_datasets_spec ⟨Fetch.exn, Fetch.exn, Fetch.exn⟩ (fun _ => 20) 20991231)
        (some (cachedCall 3600 0 (fun _ =>
          load_official_datasets_spec ⟨Fetch.exn, Fetch.exn, Fetch.exn⟩ (fun _ => 20) 20991231)
          none).2.1)).1
      = (cachedCall 3600 0 (fun _ =>
          load_official_datasets_spec ⟨Fetch.exn, Fetch.exn, Fetch.exn⟩ (fun _ => 20) 20991231)
          none).1
    ∧ (cachedCall 3600 10 (fun _ =>
        load_official_datasets_spec ⟨Fetch.exn, Fetch.exn, Fetch.exn⟩ (fun _ => 20) 20991231)
        (some (cachedCall 3600 0 (fun _ =>
          load_official_datasets_spec ⟨Fetch.exn, Fetch.exn, Fetch.exn⟩ (fun _ => 20) 20991231)
          none).2.1)).2.2 = false) :=
  ⟨by decide,
   claim_C8 ⟨Fetch.exn, Fetch.exn, Fetch.exn⟩ (fun _ => 20) 20991231 3600 0 10 (by decide)⟩

/-- Claim C10 counterexample: the claim speaks of the school_damage_geo
table returned by `load_official_datasets`, but the load returns no table
at all — it raises TypeError in the precipitation filter at line 195
before the dict of line 198 is built. -/
theorem claim_C10_cex :
    load_official_datasets oC10 (fun _ => 0) 20991231 = Except.error PyError.typeError := by
  decide

/-- Claim C10 (amended): the future-date filter leaves any frame without
a `date` column unchanged (raising nothing on it); the geo frame the
loader builds is always the geo branch result with no filter applied, and
on a successful fetch it can contain records whose lon/lat are null (a
feature whose geometry carries no `coordinates` key); but the bundle
holding that frame is never returned, the loader raising TypeError in the
precipitation filter first. -/
theorem claim_C10 :
    (∀ (c : Nat) (df : DataFrame), df.cols.contains "date" = false →
      remove_future_dates c df = Except.ok df)
    ∧ (∀ (o : Outcomes) (rand : Nat → ℚ), (loadFrames o rand).geo = geoResult o)
    ∧ (loadFrames oC10 (fun _ => 0)).geo
      = ⟨["lon", "lat", "value", "name"],
         [[Cell.null, Cell.null, Cell.num 1, Cell.str "학교"]]⟩
    ∧ (∀ (o : Outcomes) (rand : Nat → ℚ) (c : Nat),
      load_official_datasets o rand c = Except.error PyError.typeError) := by
  refine ⟨?_, ?_, by decide, fun o rand c => load_always_raises o rand c⟩
  · intro c df h
    unfold remove_future_dates
    refine if_neg ?_
    intro hc
    rw [h] at hc
    exact Bool.noConfusion hc
  · intro o rand
    cases hg : geoTry o.geo <;> simp [loadFrames, geoResult, hg]

/-- Claim C10 witness: the no-date-column clause evaluated on the literal
geo fallback frame. -/
theorem claim_C10_witness :
    geoFallback.cols.contains "date" = false
    ∧ remove_future_dates 20991231 geoFallback = Except.ok geoFallback :=
  ⟨by decide, claim_C10.1 20991231 geoFallback (by decide)⟩

lemma digitCh_facts :
    ∀ d, d < 10 → (digitCh d).isDigit = true ∧ (digitCh d).toNat = 48 + d
      ∧ digitCh d ≠ ',' ∧ digitCh d ≠ '\n' ∧ digitCh d ≠ '-' := by
  decide

lemma printNatAux_mem (fuel n : Nat) (ch : Char) (h : ch ∈ printNatAux fuel n) :
    ∃ d, d < 10 ∧ ch = digitCh d := by
  induction fuel generalizing n with
  | zero => simp [printNatAux] at h
  | succ fuel ih =>
    rw [printNatAux] at h
    split at h
    · simp at h
    · rcases List.mem_cons.mp h with hEq | hmem
      · exact ⟨n % 10, Nat.mod_lt n (by omega), hEq⟩
      · exact ih (n / 10) hmem

lemma printNat_mem (n : Nat) (ch : Char) (h : ch ∈ printNat n) :
    ∃ d, d < 10 ∧ ch = digitCh d := by
  unfold printNat at h
  split at h
  · rcases List.mem_singleton.mp h with rfl
    exact ⟨0, by omega, by decide⟩
  · exact printNatAux_mem n n ch (List.mem_reverse.mp h)

lemma printNat_all_digit (n : Nat) : (printNat n).all Char.isDigit = true := by
  rw [List.all_eq_true]
  intro ch hch
  obtain ⟨d, hd, rfl⟩ := printNat_mem n ch hch
  exact (digitCh_facts d hd).1

lemma printNat_ne_nil (n : Nat) : printNat n ≠ [] := by
  unfold printNat
  split
  · simp
  · rename_i hn
    rw [ne_eq, List.reverse_eq_nil_iff]
    cases n with
    | zero => exact absurd rfl hn
    | succ m =>
      rw [printNatAux, if_neg hn]
      simp

lemma comma_not_mem_printNat (n : Nat) : ',' ∉ printNat n := by
  intro h
  obtain ⟨d, hd, hEq⟩ := printNat_mem n ',' h
  exact (digitCh_facts d hd).2.2.1 hEq.symm

lemma newline_not_mem_printNat (n : Nat) : '\n' ∉ printNat n := by
  intro h
  obtain ⟨d, hd, hEq⟩ := printNat_mem n '\n' h
  exact (digitCh_facts d hd).2.2.2.1 hEq.symm

lemma comma_not_mem_printInt (v : Int) : ',' ∉ printInt v := by
  unfold printInt
  split
  · intro h
    rcases List.mem_cons.mp h with hEq | hmem
    · exact absurd hEq (by decide)
    · exact comma_not_mem_printNat _ hmem
  · exact comma_not_mem_printNat _

lemma newline_not_mem_printInt (v : Int) : '\n' ∉ printInt v := by
  unfold printInt
  split
  · intro h
    rcases List.mem_cons.mp h with hEq | hmem
    · exact absurd hEq (by decide)
    · exact newline_not_mem_printNat _ hmem
  · exact newline_not_mem_printNat _

lemma printNatAux_foldr (fuel : Nat) :
    ∀ n : Nat, n ≤ fuel →
      (printNatAux fuel n).foldr (fun c a => 10 * a + (c.toNat - 48)) 0 = n := by
  induction fuel with
  | zero =>
    intro n hn
    have : n = 0 := by omega
    subst this
    rfl
  | succ fuel ih =>
    intro n hn
    rw [printNatAux]
    split
    · rename_i h0
      subst h0
      rfl
    · rename_i h0
      rw [List.foldr_cons]
      rw [ih (n / 10) (by
        have := Nat.div_lt_self (by omega : 0 < n) (by omega : 1 < 10)
        omega)]
      rw [(digitCh_facts (n % 10) (Nat.mod_lt n (by omega))).2.1]
      omega

lemma parseNat_printNat (n : Nat) : parseNatChars (printNat n) = some n := by
  unfold parseNatChars
  rw [if_pos ⟨printNat_ne_nil n, printNat_all_digit n⟩]
  congr 1
  by_cases hn : n = 0
  · subst hn
    rfl
  · unfold printNat
    rw [if_neg hn]
    rw [List.foldl_reverse]
    exact printNatAux_foldr n n (Nat.le_refl n)

lemma head_printNat_ne_minus (n : Nat) : (printNat n).head? ≠ some '-' := by
  cases hc : printNat n with
  | nil => simp
  | cons a t =>
    have ha : a ∈ printNat n := by
      rw [hc]
      exact List.mem_cons_self a t
    obtain ⟨d, hd, rfl⟩ := printNat_mem n a ha
    simp only [List.head?_cons, ne_eq, Option.some.injEq]
    exact fun hEq => (digitCh_facts d hd).2.2.2.2 hEq

lemma parseInt_printInt (v : Int) : parseIntChars (printInt v) = some v := by
  by_cases hv : v < 0
  · rw [printInt, if_pos hv]
    rw [parseIntChars,
      if_pos (show ('-' :: printNat v.natAbs).head? = some '-' from rfl)]
    rw [List.tail_cons, parseNat_printNat]
    show some (-(v.natAbs : Int)) = some v
    rw [Option.some.injEq]
    omega
  · rw [printInt, if_neg hv]
    rw [parseIntChars, if_neg (head_printNat_ne_minus v.natAbs)]
    rw [parseNat_printNat]
    show some ((v.natAbs : Int)) = some v
    rw [Option.some.injEq]
    omega

lemma splitCh_not_mem (c : Char) (l : List Char) (h : c ∉ l) : splitCh c l = [l] := by
  induction l with
  | nil => rfl
  | cons a t ih =>
    have hne : ¬(a = c) := fun hEq => h (hEq ▸ List.mem_cons_self a t)
    have ht : c ∉ t := fun hm => h (List.mem_cons_of_mem a hm)
    rw [splitCh, if_neg hne, ih ht]

lemma splitCh_append (c : Char) (xs ys : List Char) (h : c ∉ xs) :
    splitCh c (xs ++ c :: ys) = xs :: splitCh c ys := by
  induction xs with
  | nil =>
    rw [List.nil_append, splitCh, if_pos rfl]
  | cons a t ih =>
    have hne : ¬(a = c) := fun hEq => h (hEq ▸ List.mem_cons_self a t)
    have ht : c ∉ t := fun hm => h (List.mem_cons_of_mem a hm)
    rw [List.cons_append, splitCh, if_neg hne, ih ht]

lemma splitCh_terminated (c : Char) (ls : List (List Char)) (h : ∀ l ∈ ls, c ∉ l) :
    splitCh c ((ls.map (fun l => l ++ [c])).flatten) = ls ++ [[]] := by
  induction ls with
  | nil => rfl
  | cons l t ih =>
    rw [List.map_cons, List.flatten_cons]
    rw [show (l ++ [c]) ++ (t.map (fun l => l ++ [c])).flatten
        = l ++ c :: (t.map (fun l => l ++ [c])).flatten from by simp]
    rw [splitCh_append c _ _ (h l (List.mem_cons_self l t))]
    rw [ih (fun x hx => h x (List.mem_cons_of_mem l hx))]
    rfl

lemma renderRec_ne_nil (r : NormRecord) : renderRec r ≠ [] := by
  unfold renderRec
  cases hc : printNat r.date with
  | nil => exact absurd hc (printNat_ne_nil r.date)
  | cons a t => simp

lemma newline_not_mem_renderRec (r : NormRecord) (hg : '\n' ∉ r.group.data) :
    '\n' ∉ renderRec r := by
  unfold renderRec
  intro h
  rcases List.mem_append.mp h with h1 | h2
  · exact newline_not_mem_printNat _ h1
  · rcases List.mem_cons.mp h2 with hEq | h3
    · exact absurd hEq (by decide)
    · rcases List.mem_append.mp h3 with h4 | h5
      · exact newline_not_mem_printInt _ h4
      · rcases List.mem_cons.mp h5 with hEq | h6
        · exact absurd hEq (by decide)
        · exact hg h6

lemma parseRecLine_renderRec (r : NormRecord) (hg : ',' ∉ r.group.data) :
    parseRecLine (renderRec r) = some r := by
  unfold parseRecLine renderRec
  rw [splitCh_append ',' _ _ (comma_not_mem_printNat r.date)]
  rw [splitCh_append ',' _ _ (comma_not_mem_printInt r.value)]
  rw [splitCh_not_mem ',' _ hg]
  simp only [parseNat_printNat, parseInt_printInt]

lemma mapM_parse_render (rs : List NormRecord) (h : ∀ r ∈ rs, ',' ∉ r.group.data) :
    (rs.map renderRec).mapM parseRecLine = some rs := by
  induction rs with
  | nil => rfl
  | cons r t ih =>
    rw [List.map_cons, List.mapM_cons]
    rw [parseRecLine_renderRec r (h r (List.mem_cons_self r t))]
    rw [ih (fun x hx => h x (List.mem_cons_of_mem r hx))]
    rfl

/-- Claim C9: exporting a NormalizedSeries through the CSV artifact
(UTF-8 with byte-order mark, one row per record, no index column) and
re-parsing that CSV yields the same sequence of (date, value, group)
tuples, modulo date formatting, for every series whose group labels are
free of the separator characters. -/
theorem claim_C9 (rs : List NormRecord) (h : ∀ r ∈ rs, GoodRec r) :
    parse_csv (get_csv_download_link rs) = some rs := by
  unfold parse_csv get_csv_download_link
  have hsb : stripBom ('\uFEFF' ::
      ((csvHeader :: rs.map renderRec).map (fun l => l ++ ['\n'])).flatten)
      = ((csvHeader :: rs.map renderRec).map (fun l => l ++ ['\n'])).flatten := rfl
  rw [hsb]
  have hnl : ∀ l ∈ csvHeader :: rs.map renderRec, '\n' ∉ l := by
    intro l hl
    rcases List.mem_cons.mp hl with hEq | hmem
    · subst hEq
      decide
    · obtain ⟨r, hr, rfl⟩ := List.mem_map.mp hmem
      exact newline_not_mem_renderRec r (h r hr).2
  rw [splitCh_terminated '\n' (csvHeader :: rs.map renderRec) hnl]
  have hfilter : ((csvHeader :: rs.map renderRec) ++ [[]]).filter (fun l => !l.isEmpty)
      = csvHeader :: rs.map renderRec := by
    rw [List.filter_append]
    rw [show ([[]] : List (List Char)).filter (fun l => !l.isEmpty) = [] from rfl]
    rw [List.append_nil]
    refine List.filter_eq_self.mpr ?_
    intro l hl
    rcases List.mem_cons.mp hl with hEq | hmem
    · subst hEq
      decide
    · obtain ⟨r, hr, rfl⟩ := List.mem_map.mp hmem
      simpa using renderRec_ne_nil r
  rw [show (csvHeader :: rs.map renderRec) ++ [[]]
      = csvHeader :: (rs.map renderRec ++ [[]]) from rfl] at hfilter
  rw [show (csvHeader :: rs.map renderRec) ++ [[]]
      = csvHeader :: (rs.map renderRec ++ [[]]) from rfl]
  rw [hfilter]
  show (if csvHeader = csvHeader then (rs.map renderRec).mapM parseRecLine else none) = some rs
  rw [if_pos rfl]
  exact mapM_parse_render rs (fun r hr => (h r hr).1)

/-- Claim C9 witness: the round trip evaluated on two concrete records of
the user dataset. -/
theorem claim_C9_witness :
    (∀ r ∈ [(⟨20230716, 24, "휴업/원격/조치"⟩ : NormRecord), ⟨20250718, 247, "학사일정 조정"⟩],
      GoodRec r)
    ∧ parse_csv (get_csv_download_link
        [⟨20230716, 24, "휴업/원격/조치"⟩, ⟨20250718, 247, "학사일정 조정"⟩])
      = some [⟨20230716, 24, "휴업/원격/조치"⟩, ⟨20250718, 247, "학사일정 조정"⟩] :=
  ⟨by decide,
   claim_C9 [⟨20230716, 24, "휴업/원격/조치"⟩, ⟨20250718, 247, "학사일정 조정"⟩] (by decide)⟩

end GdpDash
